import Mathlib

/-!
Verification of the layer extensions in `src/keras_extensions.py`.

The file defines a shallow embedding of the four extension points
(`AnyShapeEmbedding.get_output_shape_for`, `TimeDistributedRNN.compute_mask`,
`MaskedFlatten.call` / `MaskedFlatten.compute_mask`, and the backend-dispatching
`switch` helper) and proves the specified properties about them.

Tensors are embedded as total functions on `Fin`-indexed positions with integer
values (the claims never depend on floating-point rounding; every numeric value
involved is an exact small integer, so `Int` is a faithful carrier).  A tensor
shape mismatch that the underlying backend would reject at the select step is
embedded as `Option.none`.
-/

/-- A rank-3 numeric tensor of shape `(b, t, f)`. -/
abbrev Tensor3 (b t f : Nat) : Type := Fin b → Fin t → Fin f → Int

/-- A rank-2 boolean mask of shape `(b, t)`. -/
abbrev Mask2 (b t : Nat) : Type := Fin b → Fin t → Bool

/-- A rank-3 boolean mask of shape `(b, t, k)`. -/
abbrev Mask3 (b t k : Nat) : Type := Fin b → Fin t → Fin k → Bool

/-- Embeds `tf.cast(x, tf.bool)`: a numeric value is cast to `true` exactly
when it is nonzero. -/
def castToBool (x : Int) : Bool := decide (x ≠ 0)

/-- Embeds `K.dot(tf.cast(cond, tf.float32), tf.ones((g, f)))` for `cond` of
shape `(b, t, g)` (line 66 of the source, where `g = 1`): the batched matrix
product of `cond` with the all-ones matrix of shape `(g, f)`. -/
def dotOnes {b t g : Nat} (f : Nat) (cond : Tensor3 b t g) : Tensor3 b t f :=
  fun i j _k => ∑ l : Fin g, cond i j l * 1

/-- Embeds the tensorflow branch of `switch` (src lines 60-67).  If the
trailing dimension of `cond` differs from that of `then_tensor` and equals 1,
`cond` is first broadcast by a matrix product with a ones matrix; then
`tf.where(tf.cast(cond, tf.bool), then_tensor, else_tensor)` selects
elementwise.  `tf.where` requires matching shapes, so any remaining mismatch
is an error, embedded as `none`. -/
def tfSwitch {b t g f : Nat} (cond : Tensor3 b t g)
    (then_tensor else_tensor : Tensor3 b t f) : Option (Tensor3 b t f) :=
  if _hne : g ≠ f ∧ g = 1 then
    some (fun i j k =>
      if castToBool (dotOnes f cond i j k) then then_tensor i j k else else_tensor i j k)
  else if heq : g = f then
    some (fun i j k =>
      if castToBool (cond i j (Fin.cast heq.symm k)) then then_tensor i j k
      else else_tensor i j k)
  else
    none

/-- Embeds the theano branch of `switch` (src lines 68-70):
`T.switch(cond, then_tensor, else_tensor)`, theano's native elementwise select
with nonzero-is-true semantics.  Theano natively broadcasts a trailing
dimension of size 1 (the broadcastable axis produced by `K.expand_dims`);
any other mismatch is a native error, embedded as `none`. -/
def theanoSwitch {b t g f : Nat} (cond : Tensor3 b t g)
    (then_tensor else_tensor : Tensor3 b t f) : Option (Tensor3 b t f) :=
  if heq : g = f then
    some (fun i j k =>
      if castToBool (cond i j (Fin.cast heq.symm k)) then then_tensor i j k
      else else_tensor i j k)
  else if h1 : g = 1 then
    some (fun i j k =>
      if castToBool (cond i j ⟨0, by omega⟩) then then_tensor i j k else else_tensor i j k)
  else
    none

/-- Embeds `switch(cond, then_tensor, else_tensor)` (src lines 55-70).  The
globally read backend identifier `K.backend()` becomes an explicit `String`
parameter; the source dispatches with `if K.backend() == 'tensorflow'` and
sends every other backend string to the theano delegation branch. -/
def switch {b t g f : Nat} (backend : String) (cond : Tensor3 b t g)
    (then_tensor else_tensor : Tensor3 b t f) : Option (Tensor3 b t f) :=
  if backend = "tensorflow" then tfSwitch cond then_tensor else_tensor
  else theanoSwitch cond then_tensor else_tensor

/-- Embeds `TimeDistributedRNN.compute_mask` (src lines 28-34): `None` maps to
`None`; otherwise the result is `K.any(input_mask, axis=-1)`, the OR-reduction
of the mask along its innermost axis. -/
def TimeDistributedRNN.compute_mask {b t k : Nat} (_x : Tensor3 b t k)
    (input_mask : Option (Mask3 b t k)) : Option (Mask2 b t) :=
  match input_mask with
  | none => none
  | some m => some (fun i j => decide (∃ l, m i j l = true))

/-- Embeds the base `Flatten.call`: collapse all non-batch dimensions of a
rank-3 input into one, in row-major order. -/
def Flatten.call {b t f : Nat} (inputs : Tensor3 b t f) :
    Fin b → Fin (t * f) → Int :=
  fun i m =>
    have hf : 0 < f := by
      rcases Nat.eq_zero_or_pos f with h | h
      · exact absurd m.isLt (by simp [h])
      · exact h
    inputs i ⟨m.val / f, (Nat.div_lt_iff_lt_mul hf).mpr m.isLt⟩
      ⟨m.val % f, Nat.mod_lt _ hf⟩

/-- The layer state of `MaskedFlatten`: the only attribute this code touches
is the `supports_masking` flag. -/
structure MaskedFlatten where
  supports_masking : Bool

/-- Embeds `MaskedFlatten.__init__` (src lines 41-43): after the base
constructor, `supports_masking` is set to `True`. -/
def MaskedFlatten.init : MaskedFlatten := { supports_masking := true }

/-- Embeds `MaskedFlatten.call` (src lines 45-49): with a mask present, the
mask is expanded with a trailing size-1 axis (`K.expand_dims(mask)`) and the
input is replaced by `switch(expanded_mask, inputs, K.zeros_like(inputs))`
before the inherited flatten; with no mask the input passes through
unchanged.  The ambient backend identifier is an explicit parameter. -/
def MaskedFlatten.call {b t f : Nat} (backend : String) (inputs : Tensor3 b t f)
    (mask : Option (Mask2 b t)) : Option (Fin b → Fin (t * f) → Int) :=
  match mask with
  | none => some (Flatten.call inputs)
  | some m =>
      let expanded : Tensor3 b t 1 := fun i j _ => if m i j then 1 else 0
      (switch backend expanded inputs (fun _ _ _ => 0)).map Flatten.call

/-- Embeds `MaskedFlatten.compute_mask` (src lines 51-52): always `None`. -/
def MaskedFlatten.compute_mask {b t f : Nat} (_inputs : Tensor3 b t f)
    (_mask : Option (Mask2 b t)) : Option (Mask2 b t) := none

/-- `MaskedFlatten.call` as an operation on the layer state: the source method
assigns no attribute, so the state is returned unchanged alongside the
output. -/
def MaskedFlatten.callOp {b t f : Nat} (layer : MaskedFlatten) (backend : String)
    (inputs : Tensor3 b t f) (mask : Option (Mask2 b t)) :
    MaskedFlatten × Option (Fin b → Fin (t * f) → Int) :=
  (layer, MaskedFlatten.call backend inputs mask)

/-- `MaskedFlatten.compute_mask` as an operation on the layer state: the source
method assigns no attribute, so the state is returned unchanged. -/
def MaskedFlatten.computeMaskOp {b t f : Nat} (layer : MaskedFlatten)
    (inputs : Tensor3 b t f) (mask : Option (Mask2 b t)) :
    MaskedFlatten × Option (Mask2 b t) :=
  (layer, MaskedFlatten.compute_mask inputs mask)

/-- The layer state of `AnyShapeEmbedding`: the configured embedding
dimensionality `output_dim`. -/
structure AnyShapeEmbedding where
  output_dim : Nat

/-- Embeds `AnyShapeEmbedding.get_output_shape_for` (src lines 16-18):
`input_shape + (self.output_dim,)`, tuple concatenation appending the
embedding dimension. -/
def AnyShapeEmbedding.get_output_shape_for (layer : AnyShapeEmbedding)
    (input_shape : List Nat) : List Nat :=
  input_shape ++ [layer.output_dim]

/-- Concrete witness data: a `(1, 1, 1)` all-ones condition tensor. -/
def condW : Tensor3 1 1 1 := fun _ _ _ => 1

/-- Concrete witness data: a `(1, 2, 1)` condition tensor masking the second
time step. -/
def condW2 : Tensor3 1 2 1 := fun _ j _ => if j.val = 0 then 1 else 0

/-- Concrete witness data: a `(1, 2, 2)` then-tensor. -/
def thenW : Tensor3 1 2 2 := fun _ _ _ => 5

/-- Concrete witness data: a `(1, 2, 2)` else-tensor. -/
def elseW : Tensor3 1 2 2 := fun _ _ _ => 7

/-- Concrete witness data: a `(1, 2, 2)` condition tensor whose trailing
dimension already matches the then-tensor. -/
def condeqW : Tensor3 1 2 2 := fun _ _ k => if k.val = 0 then 1 else 0

/-- Evaluation helper: `castToBool` of a 0/1 indicator recovers the boolean. -/
theorem castToBool_indicator (p : Bool) :
    castToBool (if p then 1 else 0) = p := by
  cases p <;> rfl

/-- Evaluation helper: `switch` applied, under either backend, to an
expanded boolean mask, an input tensor, and a zeros tensor produces the
input with masked-out positions zeroed. -/
theorem switch_mask_eval {b t f : Nat} (backend : String) (m : Mask2 b t)
    (inputs : Tensor3 b t f) :
    switch backend (fun (i : Fin b) (j : Fin t) (_l : Fin 1) => if m i j then (1 : Int) else 0)
        inputs (fun _ _ _ => 0) =
      some (fun i j k => if m i j then inputs i j k else 0) := by
  have htf : tfSwitch (fun (i : Fin b) (j : Fin t) (_ : Fin 1) => if m i j then (1 : Int) else 0)
      inputs (fun _ _ _ => 0) =
      some (fun i j k => if m i j then inputs i j k else 0) := by
    by_cases hf : f = 1
    · subst hf
      unfold tfSwitch
      rw [dif_neg (by simp), dif_pos rfl]
      congr 1
      funext i j k
      rw [castToBool_indicator]
    · unfold tfSwitch
      rw [dif_pos ⟨fun h => hf h.symm, rfl⟩]
      congr 1
      funext i j k
      have hdot : dotOnes f (fun (i : Fin b) (j : Fin t) (_ : Fin 1) =>
          if m i j then (1 : Int) else 0) i j k = if m i j then 1 else 0 := by
        simp [dotOnes]
      rw [hdot, castToBool_indicator]
  have hth : theanoSwitch (fun (i : Fin b) (j : Fin t) (_ : Fin 1) => if m i j then (1 : Int) else 0)
      inputs (fun _ _ _ => 0) =
      some (fun i j k => if m i j then inputs i j k else 0) := by
    by_cases hf : (1 : Nat) = f
    · unfold theanoSwitch
      rw [dif_pos hf]
      congr 1
      funext i j k
      rw [castToBool_indicator]
    · unfold theanoSwitch
      rw [dif_neg hf, dif_pos rfl]
      congr 1
      funext i j k
      rw [castToBool_indicator]
  unfold switch
  by_cases hb : backend = "tensorflow"
  · rw [if_pos hb]; exact htf
  · rw [if_neg hb]; exact hth

/-- C1: under the tensorflow backend, `switch` with `cond` of shape
`(b, t, 1)` and then/else tensors of shape `(b, t, f)`, `f > 1`, broadcasts
`cond` by the ones matrix product and selects elementwise: the result has
shape `(b, t, f)` and entry `(i, j, k)` equals `then_tensor i j k` when
`cond i j 0` casts to true and `else_tensor i j k` otherwise; and when the
trailing dimensions already agree, the select uses `cond` directly with no
broadcast adjustment. -/
theorem switch_tensorflow_broadcast {b t f : Nat} (cond : Tensor3 b t 1)
    (then_tensor else_tensor : Tensor3 b t f) (cond_eq : Tensor3 b t f)
    (hf : 1 < f) :
    (∃ r, switch "tensorflow" cond then_tensor else_tensor = some r ∧
      ∀ i j k, r i j k =
        if castToBool (cond i j 0) then then_tensor i j k else else_tensor i j k) ∧
    switch "tensorflow" cond_eq then_tensor else_tensor =
      some (fun i j k =>
        if castToBool (cond_eq i j k) then then_tensor i j k else else_tensor i j k) := by
  constructor
  · refine ⟨fun i j k =>
      if castToBool (dotOnes f cond i j k) then then_tensor i j k else else_tensor i j k,
      ?_, ?_⟩
    · unfold switch
      rw [if_pos rfl]
      unfold tfSwitch
      rw [dif_pos ⟨by omega, rfl⟩]
    · intro i j k
      have hdot : dotOnes f cond i j k = cond i j 0 := by
        simp [dotOnes]
      simp only [hdot]
  · unfold switch
    rw [if_pos rfl]
    unfold tfSwitch
    rw [dif_neg (by simp), dif_pos rfl]
    rfl

/-- Witness for C1 at `b = 1`, `t = 2`, `f = 2` with concrete tensors. -/
theorem switch_tensorflow_broadcast_w :
    (∃ r, switch "tensorflow" condW2 thenW elseW = some r ∧
      ∀ i j k, r i j k =
        if castToBool (condW2 i j 0) then thenW i j k else elseW i j k) ∧
    switch "tensorflow" condeqW thenW elseW =
      some (fun i j k =>
        if castToBool (condeqW i j k) then thenW i j k else elseW i j k) :=
  switch_tensorflow_broadcast condW2 thenW elseW condeqW (by decide)

/-- C2: for boolean-valued `cond` and then/else tensors all of the same shape,
`switch` returns the same elementwise select under the tensorflow branch as
under the theano branch. -/
theorem switch_backends_agree {b t f : Nat} (cond : Tensor3 b t f)
    (then_tensor else_tensor : Tensor3 b t f)
    (hbool : ∀ i j k, cond i j k = 0 ∨ cond i j k = 1) :
    switch "tensorflow" cond then_tensor else_tensor =
      switch "theano" cond then_tensor else_tensor := by
  unfold switch
  rw [if_pos rfl, if_neg (by decide)]
  unfold tfSwitch theanoSwitch
  rw [dif_neg (by simp), dif_pos rfl, dif_pos rfl]

/-- Witness for C2 at `b = t = f = 1` with a concrete boolean condition. -/
theorem switch_backends_agree_w :
    switch "tensorflow" condW condW condW = switch "theano" condW condW condW :=
  switch_backends_agree condW condW condW (by decide)

/-- C3: `TimeDistributedRNN.compute_mask` maps an absent mask to an absent
mask, and a present mask of shape `(b, t, k)` to the OR-reduction along the
innermost axis: the output at `(i, j)` is true exactly when some
`input_mask i j l` is true. -/
theorem timeDistributedRNN_compute_mask_or {b t k : Nat} (x : Tensor3 b t k) :
    TimeDistributedRNN.compute_mask x (none : Option (Mask3 b t k)) = none ∧
    ∀ m : Mask3 b t k, ∃ m2,
      TimeDistributedRNN.compute_mask x (some m) = some m2 ∧
      ∀ i j, (m2 i j = true ↔ ∃ l, m i j l = true) := by
  refine ⟨rfl, fun m => ⟨fun i j => decide (∃ l, m i j l = true), rfl, fun i j => ?_⟩⟩
  exact decide_eq_true_iff

/-- C9: `TimeDistributedRNN.compute_mask` ignores its input tensor argument:
for any two inputs and any mask the results coincide. -/
theorem timeDistributedRNN_compute_mask_ignores_input {b t k : Nat}
    (x1 x2 : Tensor3 b t k) (m : Option (Mask3 b t k)) :
    TimeDistributedRNN.compute_mask x1 m = TimeDistributedRNN.compute_mask x2 m := by
  cases m <;> rfl

/-- C4: `MaskedFlatten.call` passes the input unchanged to the flatten when
the mask is absent, and otherwise zeroes every masked-out position and keeps
every valid position before flattening, under any backend string. -/
theorem maskedFlatten_call_zeroes {b t f : Nat} (backend : String)
    (inputs : Tensor3 b t f) (m : Mask2 b t) :
    MaskedFlatten.call backend inputs (none : Option (Mask2 b t)) =
      some (Flatten.call inputs) ∧
    MaskedFlatten.call backend inputs (some m) =
      some (Flatten.call (fun i j k => if m i j then inputs i j k else 0)) := by
  refine ⟨rfl, ?_⟩
  show (switch backend (fun (i : Fin b) (j : Fin t) (_l : Fin 1) => if m i j then (1 : Int) else 0)
      inputs (fun _ _ _ => 0)).map Flatten.call = _
  rw [switch_mask_eval]
  rfl

/-- C5: `MaskedFlatten.compute_mask` returns `none` for every input and every
mask: the layer always terminates mask propagation. -/
theorem maskedFlatten_compute_mask_none {b t f : Nat} (inputs : Tensor3 b t f)
    (mask : Option (Mask2 b t)) :
    MaskedFlatten.compute_mask inputs mask = none := rfl

/-- C6: `AnyShapeEmbedding.get_output_shape_for` on a shape of rank at least 1
returns exactly the input shape with the embedding dimension appended, so the
output rank is the input rank plus one. -/
theorem anyShapeEmbedding_output_shape (layer : AnyShapeEmbedding)
    (S : List Nat) (hS : 1 ≤ S.length) :
    layer.get_output_shape_for S = S ++ [layer.output_dim] ∧
    (layer.get_output_shape_for S).length = S.length + 1 := by
  exact ⟨rfl, by simp [AnyShapeEmbedding.get_output_shape_for]⟩

/-- Witness for C6 at input shape `(32, 10)` and embedding dimension 50. -/
theorem anyShapeEmbedding_output_shape_w :
    (AnyShapeEmbedding.mk 50).get_output_shape_for [32, 10] = [32, 10] ++ [50] ∧
    ((AnyShapeEmbedding.mk 50).get_output_shape_for [32, 10]).length =
      ([32, 10] : List Nat).length + 1 :=
  anyShapeEmbedding_output_shape (AnyShapeEmbedding.mk 50) [32, 10] (by decide)

/-- C7: `switch` dispatches purely on the backend string: the tensorflow
string selects the graph-compiled branch, the theano string the symbolic
branch, every string reaches one of exactly those two branches, and an
unsupported third backend is not validated — it flows unchecked into the
symbolic-expression delegation branch, so any failure there (such as a
module-import or attribute error of the host environment) is the
delegation's, not an error raised by `switch` itself. -/
theorem switch_dispatch_two_backends {b t g f : Nat} (s : String)
    (cond : Tensor3 b t g) (then_tensor else_tensor : Tensor3 b t f)
    (hs1 : s ≠ "tensorflow") (hs2 : s ≠ "theano") :
    switch "tensorflow" cond then_tensor else_tensor =
      tfSwitch cond then_tensor else_tensor ∧
    switch "theano" cond then_tensor else_tensor =
      theanoSwitch cond then_tensor else_tensor ∧
    switch s cond then_tensor else_tensor =
      theanoSwitch cond then_tensor else_tensor ∧
    ∀ s2 : String, switch s2 cond then_tensor else_tensor =
        tfSwitch cond then_tensor else_tensor ∨
      switch s2 cond then_tensor else_tensor =
        theanoSwitch cond then_tensor else_tensor := by
  refine ⟨?_, ?_, ?_, ?_⟩
  · unfold switch; rw [if_pos rfl]
  · unfold switch; rw [if_neg (by decide)]
  · unfold switch; rw [if_neg hs1]
  · intro s2
    unfold switch
    by_cases h : s2 = "tensorflow"
    · exact Or.inl (by rw [if_pos h])
    · exact Or.inr (by rw [if_neg h])

/-- Witness for C7 at the unsupported backend string cntk with concrete
tensors. -/
theorem switch_dispatch_two_backends_w :
    switch "tensorflow" condW condW condW = tfSwitch condW condW condW ∧
    switch "theano" condW condW condW = theanoSwitch condW condW condW ∧
    switch "cntk" condW condW condW = theanoSwitch condW condW condW ∧
    ∀ s2 : String, switch s2 condW condW condW = tfSwitch condW condW condW ∨
      switch s2 condW condW condW = theanoSwitch condW condW condW :=
  switch_dispatch_two_backends "cntk" condW condW condW (by decide) (by decide)

/-- C8: a `MaskedFlatten` has `supports_masking` set to true on construction,
and neither layer operation changes the layer state. -/
theorem maskedFlatten_supports_masking :
    MaskedFlatten.init.supports_masking = true ∧
    (∀ (layer : MaskedFlatten) (b t f : Nat) (backend : String)
        (inputs : Tensor3 b t f) (mask : Option (Mask2 b t)),
      (layer.callOp backend inputs mask).1 = layer) ∧
    (∀ (layer : MaskedFlatten) (b t f : Nat) (inputs : Tensor3 b t f)
        (mask : Option (Mask2 b t)),
      (layer.computeMaskOp inputs mask).1 = layer) :=
  ⟨rfl, fun _ _ _ _ _ _ _ => rfl, fun _ _ _ _ _ _ => rfl⟩

/-- C10: `AnyShapeEmbedding.get_output_shape_for` is total on all shape
tuples: on the empty (rank-0) shape it returns the one-element shape holding
the embedding dimension. -/
theorem anyShapeEmbedding_total_on_empty (d : Nat) :
    (AnyShapeEmbedding.mk d).get_output_shape_for [] = [d] := rfl
